import Mathlib

/-!
# Verification of the ghidra-mcp instance registry (`src/bridge/state.py`)

Shallow embedding of the instance registry, discovery and refresher code in
`src/bridge/state.py` together with the registry tools in
`src/bridge/tools/instance_tools.py`.  The outside world (the Ghidra plugin
HTTP endpoints reached through `requests.get`) is modelled as an oracle
mapping a full request URL to an HTTP outcome; every function of the source
that touches the store is translated line by line against that oracle.

Conventions:
* Python dicts holding instance records are association lists
  (`Record`) whose insert overwrites the first binding of an existing key,
  mirroring in-place dict assignment; the port-indexed store is a partial
  map `Nat → Option Record`, mirroring `active_instances`.
* Decoded JSON bodies are the `Json` inductive; a `none` body stands for a
  `.json()` call that raises (non-JSON payload).  Python float values and
  the `int`/`bool` overlap of Python `==` are not exercised by any claim
  and are not modelled; `api_version` comparisons are against the integer
  constant 2010 exactly as in `state.py:85`.
* Exceptions raised by `get_instance_port` are modelled as `Except.error`.
-/

namespace GhidraMcp

/-- Decoded JSON value, the result of Python's `response.json()`. -/
inductive Json where
  | null
  | bool (b : Bool)
  | num (n : Int)
  | str (s : String)
  | arr (elems : List Json)
  | obj (fields : List (String × Json))

/-- A value stored in an instance-record dict: either a Python `str`
produced by the bridge itself (url, project, path) or a raw decoded JSON
value copied from a backend response. -/
inductive Value where
  | vStr (s : String)
  | vJson (j : Json)

/-- One instance record — the Python dict `project_info` / `info`.
Association list in insertion order; keys unique by construction. -/
abbrev Record := List (String × Value)

/-- The instance store `active_instances : dict[int, dict]`, as a partial
map from port to record. -/
abbrev Store := Nat → Option Record

/-- Outcome of one `requests.get` call: a raised `RequestException`
(carrying the exception text), or a response with an HTTP status
(`ok : Bool` is Python's `response.ok`) and a body; `body = none` means
`response.json()` raises. -/
inductive HttpResult where
  | err (msg : String)
  | resp (ok : Bool) (body : Option Json)

/-- The network oracle: what `requests.get(url)` returns for each URL. -/
abbrev Network := String → HttpResult

/-- `BRIDGE_VERSION`-adjacent constants of `state.py:11-19`. -/
def REQUIRED_API_VERSION : Int := 2010

/-- `DEFAULT_GHIDRA_PORT = 8192` (`state.py:14`). -/
def DEFAULT_GHIDRA_PORT : Nat := 8192

/-- `GHIDRA_HOST` with the environment default `"localhost"`
(`state.py:15-16`). -/
def GHIDRA_HOST : String := "localhost"

/-- `FULL_DISCOVERY_RANGE = range(8192, 8192 + 20)` (`state.py:19`). -/
def fullDiscoveryRange : List Nat := (List.range 20).map (DEFAULT_GHIDRA_PORT + ·)

/-- `QUICK_DISCOVERY_RANGE = range(8192, 8192 + 10)` (`state.py:18`). -/
def quickDiscoveryRange : List Nat := (List.range 10).map (DEFAULT_GHIDRA_PORT + ·)

/-! ## Dict primitives -/

/-- Dict lookup: first binding of the key. -/
def recGet : Record → String → Option Value
  | [], _ => none
  | (k', v') :: rest, k => if k' = k then some v' else recGet rest k

/-- Dict assignment `d[k] = v`: overwrite the binding in place, else append. -/
def recInsert : Record → String → Value → Record
  | [], k, v => [(k, v)]
  | (k', v') :: rest, k, v =>
    if k' = k then (k, v) :: rest else (k', v') :: recInsert rest k v

/-- Store assignment `active_instances[port] = r`. -/
def storeInsert (st : Store) (p : Nat) (r : Record) : Store :=
  fun q => if q = p then some r else st q

/-- Store deletion `del active_instances[port]`. -/
def storeErase (st : Store) (p : Nat) : Store :=
  fun q => if q = p then none else st q

/-- Membership test `port in active_instances`. -/
def storeHas (st : Store) (p : Nat) : Bool := (st p).isSome

/-- The empty store (process start: `active_instances = {}`). -/
def emptyStore : Store := fun _ => none

/-! ## JSON helpers -/

/-- Lookup a key of a decoded JSON object. -/
def jlookup : List (String × Json) → String → Option Json
  | [], _ => none
  | (k', v) :: rest, k => if k' = k then some v else jlookup rest k

/-- Python `dict.get(k, d)` on a decoded JSON object. -/
def jgetD (fs : List (String × Json)) (k : String) (d : Json) : Json :=
  (jlookup fs k).getD d

/-- `"result" in data` followed by `isinstance(data["result"], dict)`:
yields the result object's fields when the body is an object carrying a
dict under `"result"`, and `none` otherwise.  (Non-object bodies make the
`in` / subscript raise in Python; the exception is swallowed by the
enclosing handlers, so the outcome is the same `none`.) -/
def getResultDict (j : Json) : Option (List (String × Json)) :=
  match j with
  | .obj fs =>
    match jlookup fs "result" with
    | some (.obj rfs) => some rfs
    | _ => none
  | _ => none

/-- Python truthiness of a decoded JSON value. -/
def truthy : Json → Bool
  | .null => false
  | .bool b => b
  | .num n => n != 0
  | .str s => s != ""
  | .arr xs => !xs.isEmpty
  | .obj fs => !fs.isEmpty

/-- `api_version != REQUIRED_API_VERSION` at `state.py:85`, negated:
true exactly when the decoded value equals the integer 2010. -/
def isRequiredVersion : Json → Bool
  | .num n => n == REQUIRED_API_VERSION
  | _ => false

/-- Python `str()` of a decoded JSON value as used in f-strings.
Containers are abstracted (no claim exercises them). -/
def jsonStr : Json → String
  | .null => "None"
  | .bool true => "True"
  | .bool false => "False"
  | .num n => toString n
  | .str s => s
  | .arr _ => "[...]"
  | .obj _ => "[object]"

/-- Python `str()` of a stored record value. -/
def valueStr : Value → String
  | .vStr s => s
  | .vJson j => jsonStr j

/-! ## The validator: `register_instance` (`state.py:59-136`) -/

/-- `url = url or f"http://{GHIDRA_HOST}:{port}"` (`state.py:61-62`). -/
def registerUrl (port : Nat) (urlArg : Option String) : String :=
  urlArg.getD s!"http://{GHIDRA_HOST}:{port}"

/-- Outcome of the version block `state.py:73-98`: either the mismatch
early-return of line 91, the extracted pair (line 82-83), or fall-through
with no version fields (body unparseable or without a result dict — every
exception in the block is caught and printed at line 97-98, after which
registration continues). -/
inductive VersionOutcome where
  | mismatch (av : Json)
  | extracted (pv av : Json)
  | skip

/-- Version block of `register_instance` (`state.py:73-98`). -/
def versionOutcome (body : Option Json) : VersionOutcome :=
  match body with
  | none => .skip
  | some j =>
    match getResultDict j with
    | none => .skip
    | some res =>
      let pv := jgetD res "plugin_version" (.str "")
      let av := jgetD res "api_version" (.num 0)
      if isRequiredVersion av then .extracted pv av else .mismatch av

/-- The `VERSION_MISMATCH` message built at `state.py:86-89`. -/
def mismatchMsg (av : Json) : String :=
  s!"API version mismatch: Plugin reports version {jsonStr av}, " ++
    s!"but bridge requires version {REQUIRED_API_VERSION}"

/-- The success message of `state.py:134`. -/
def registeredMsg (port : Nat) (url : String) : String :=
  s!"Registered instance on port {port} at {url}"

/-- The `ValueError` message of `state.py:32`. -/
def noActiveMsg (port : Nat) : String :=
  s!"No active Ghidra instance on port {port}"

/-- Metadata fields extracted from a `/program` result dict and written
into a record: `state.py:109-120` (validator) and `state.py:218-230`
(refresher) share this block.  `withLinks` is true for the validator,
which additionally copies `_links` (`state.py:122-123`).  A non-string
`programId` makes `":" in program_id` raise `TypeError`, which the
enclosing `except` swallows before any field is written, hence the
fall-through branch. -/
def applyProgramFields (withLinks : Bool) (res : List (String × Json))
    (r : Record) : Record :=
  match jgetD res "programId" (.str "") with
  | .str s =>
    let r1 :=
      if s.data.contains ':' then
        -- program_id.split(":", 1); leading "/" stripped from the path
        let projectName := String.mk (s.data.takeWhile (· ≠ ':'))
        let rest := (s.data.dropWhile (· ≠ ':')).drop 1
        let filePath := String.mk (match rest with | '/' :: t => t | _ => rest)
        recInsert (recInsert r "project" (.vStr projectName)) "path" (.vStr filePath)
      else r
    let r2 :=
      recInsert (recInsert (recInsert (recInsert r1
        "file" (.vJson (jgetD res "name" (.str ""))))
        "language_id" (.vJson (jgetD res "languageId" (.str ""))))
        "compiler_spec_id" (.vJson (jgetD res "compilerSpecId" (.str ""))))
        "image_base" (.vJson (jgetD res "image_base" (.str "")))
    if withLinks then
      match jlookup res "_links" with
      | some links => recInsert r2 "_links" (.vJson links)
      | none => r2
    else r2
  | _ => r

/-- Best-effort metadata enrichment of `register_instance`
(`state.py:100-127`): probe `{url}/program`; every failure (connection
error, non-success status, unparseable body, absent result dict) is
swallowed and the record is returned untouched. -/
def registerEnrich (net : Network) (url : String) (r : Record) : Record :=
  match net (url ++ "/program") with
  | .err _ => r
  | .resp ok body =>
    if ok then
      match body with
      | none => r
      | some j =>
        match getResultDict j with
        | none => r
        | some res => applyProgramFields true res r
    else r

/-- `register_instance(port, url=None)` (`state.py:59-136`): returns the
message and the store after the call.  The store is written only at
`state.py:131-132`, after the version block and the enrichment both
completed without an early return. -/
def registerInstance (net : Network) (st : Store) (port : Nat)
    (urlArg : Option String) : String × Store :=
  let url := registerUrl port urlArg
  match net (url ++ "/plugin-version") with
  | .err e => (s!"Error: Could not connect to instance at {url}: {e}", st)
  | .resp ok body =>
    if ok then
      match versionOutcome body with
      | .mismatch av => (mismatchMsg av, st)
      | .extracted pv av =>
        let r0 : Record :=
          recInsert (recInsert [("url", Value.vStr url)]
            "plugin_version" (.vJson pv)) "api_version" (.vJson av)
        (registeredMsg port url, storeInsert st port (registerEnrich net url r0))
      | .skip =>
        (registeredMsg port url,
          storeInsert st port (registerEnrich net url [("url", Value.vStr url)]))
    else (s!"Error: Instance at {url} is not responding properly to HATEOAS API", st)

/-! ## Discovery scanner: `_discover_instances` (`state.py:139-190`) -/

/-- The well-formedness gate of `state.py:163`:
`"success" in json_data and json_data["success"] and "result" in json_data`. -/
def discoveryWellFormed (j : Json) : Bool :=
  match j with
  | .obj fs =>
    (match jlookup fs "success" with
     | some v => truthy v
     | none => false) && (jlookup fs "result").isSome
  | _ => false

/-- Python substring test `needle in haystack` on character lists. -/
def listIsInfix (needle : List Char) : List Char → Bool
  | [] => needle.isEmpty
  | c :: rest => needle.isPrefixOf (c :: rest) || listIsInfix needle rest

/-- The condition of `state.py:163` raises `TypeError` — which the
`except (ValueError, KeyError)` at `state.py:184` does NOT catch, so it
escapes `_discover_instances` — exactly when the decoded body is a
scalar (`"success" in 5` is not iterable), a string containing the
substring `"success"`, or an array containing the string `"success"`
(membership succeeds, then the string subscript `json_data["success"]`
raises).  A dict body never raises here; a string or array not
containing `"success"` short-circuits the condition to false. -/
def discoveryRaises (j : Json) : Bool :=
  match j with
  | .obj _ => false
  | .str s => listIsInfix "success".data s.data
  | .arr xs => xs.any (fun e => match e with | .str s => s == "success" | _ => false)
  | .null => true
  | .bool _ => true
  | .num _ => true

/-- `_discover_instances(port_range, host, timeout)` (`state.py:139-190`),
restricted to its store effect and the list of found ports (the
per-instance summary dicts of the returned payload are built from the
probe body and the freshly written store entry and are returned to the
caller only; no claim touches them).  Ports already present are skipped
(`state.py:145-146`); connection errors, non-success statuses and
unparseable bodies are skipped silently.  A body on which the success
check raises `TypeError` aborts the scan at that port: the second
component is `none` (the exception propagates to the caller), and the
first component is the store as mutated up to that point. -/
def discoverInstances (net : Network) (host : String) :
    Store → List Nat → Store × Option (List Nat)
  | st, [] => (st, some [])
  | st, port :: rest =>
    if storeHas st port then discoverInstances net host st rest
    else
      let url := s!"http://{host}:{port}"
      match net (url ++ "/plugin-version") with
      | .err _ => discoverInstances net host st rest
      | .resp ok body =>
        if ok then
          match body with
          | none => discoverInstances net host st rest
          | some j =>
            if discoveryRaises j then (st, none)
            else if discoveryWellFormed j then
              let next :=
                discoverInstances net host (registerInstance net st port (some url)).2 rest
              (next.1, next.2.map (port :: ·))
            else discoverInstances net host st rest
        else discoverInstances net host st rest

/-! ## Background refresher: one cycle of `periodic_discovery`
(`state.py:193-247`) -/

/-- The unguarded `info["url"]` access of `state.py:202`.  Total model:
defaults to `""` when the key is missing or not a string; the store
invariant proved below shows the default is never exercised on a
reachable store. -/
def recUrlD (r : Record) : String :=
  match recGet r "url" with
  | some (.vStr s) => s
  | _ => ""

/-- The refresher's best-effort metadata refresh (`state.py:209-237`):
same field block as the validator, without `_links`. -/
def refreshMeta (net : Network) (r : Record) : Record :=
  match net (recUrlD r ++ "/program") with
  | .err _ => r
  | .resp ok body =>
    if ok then
      match body with
      | none => r
      | some j =>
        match getResultDict j with
        | none => r
        | some res => applyProgramFields false res r
    else r

/-- Per-record liveness sweep of the refresher (`state.py:201-239`):
a connection error or non-success status on `{url}/plugin-version` marks
the port for removal (`none`); on success the record's metadata is
refreshed and the record retained. -/
def sweepRecord (net : Network) (r : Record) : Option Record :=
  match net (recUrlD r ++ "/plugin-version") with
  | .err _ => none
  | .resp ok _ => if ok then some (refreshMeta net r) else none

/-- The sweep applied to the whole store, with the marked ports deleted
(`state.py:241-243`). -/
def sweepStore (net : Network) (st : Store) : Store :=
  fun p => (st p).bind (sweepRecord net)

/-- One cycle of `periodic_discovery` (`state.py:195-243`): a full-range
discovery scan followed by the liveness sweep.  When the scan raises
(a `TypeError` escaping `_discover_instances`), the outer
`except Exception` at `state.py:244` catches it after the partial scan
mutations but before the `with instances_lock` block, so the whole
liveness sweep is skipped for that cycle and nothing is removed. -/
def refresherCycle (net : Network) (st : Store) : Store :=
  match (discoverInstances net GHIDRA_HOST st fullDiscoveryRange).2 with
  | none => (discoverInstances net GHIDRA_HOST st fullDiscoveryRange).1
  | some _ => sweepStore net (discoverInstances net GHIDRA_HOST st fullDiscoveryRange).1

/-! ## Resolver and tools -/

/-- Process-wide mutable state: the store plus `current_instance_port`. -/
structure BridgeState where
  store : Store
  currentPort : Nat

/-- State at process start (`state.py:21-23`): empty store, current port
`DEFAULT_GHIDRA_PORT`. -/
def initState : BridgeState := { store := emptyStore, currentPort := 8192 }

/-- `port = port or current_instance_port` (`state.py:28`): `None` and
the falsy `0` both resolve to the current port. -/
def resolvePortArg (portArg : Option Nat) (current : Nat) : Nat :=
  match portArg with
  | none => current
  | some p => if p = 0 then current else p

/-- `get_instance_port(port=None)` (`state.py:26-33`).  The raised
`ValueError` is modelled as `Except.error`; the returned state carries
the store as updated by the lazy registration attempt. -/
def getInstancePort (net : Network) (s : BridgeState) (portArg : Option Nat) :
    Except String Nat × BridgeState :=
  let port := resolvePortArg portArg s.currentPort
  if storeHas s.store port then (.ok port, s)
  else
    let st' := (registerInstance net s.store port none).2
    if storeHas st' port then (.ok port, { s with store := st' })
    else (.error (noActiveMsg port), { s with store := st' })

/-- `set_current_port(port)` (`state.py:48-51`). -/
def setCurrentPort (s : BridgeState) (port : Nat) : BridgeState :=
  { s with currentPort := port }

/-- `instances_unregister(port)` (`instance_tools.py:81-89`). -/
def instancesUnregister (st : Store) (port : Nat) : String × Store :=
  if storeHas st port then
    (s!"Unregistered instance on port {port}", storeErase st port)
  else (s!"No instance found on port {port}", st)

/-- `instances_use(port)` (`instance_tools.py:92-107`): lazy registration,
then `set_current_port` only when the port ended up in the store. -/
def instancesUse (net : Network) (s : BridgeState) (port : Nat) :
    String × BridgeState :=
  let st1 := if storeHas s.store port then s.store
             else (registerInstance net s.store port none).2
  match st1 port with
  | some info =>
    let program := match recGet info "file" with
                   | some v => valueStr v
                   | none => "unknown program"
    let project := match recGet info "project" with
                   | some v => valueStr v
                   | none => "unknown project"
    (s!"Now using Ghidra instance on port {port} with {program} in project {project}",
      { store := st1, currentPort := port })
  | none =>
    (s!"Error: No active Ghidra instance found on port {port}", { s with store := st1 })

/-! ## The registry as a state machine

Every entry point that can mutate the process-wide state, each carrying
its own view of the external network.  `get_instance_url`'s lazy
registration path re-acquires the non-reentrant store lock inside
`register_instance` and cannot complete (see the trace model below); its
store effect, were it to complete, coincides with a `register` step. -/
inductive Op where
  | register (net : Network) (port : Nat) (urlArg : Option String)
  | scan (net : Network) (host : String) (ports : List Nat)
  | cycle (net : Network)
  | unregister (port : Nat)
  | resolve (net : Network) (portArg : Option Nat)
  | use (net : Network) (port : Nat)
  | setCurrent (port : Nat)

/-- Effect of one operation on the process state. -/
def stepOp (s : BridgeState) : Op → BridgeState
  | .register net port urlArg =>
    { s with store := (registerInstance net s.store port urlArg).2 }
  | .scan net host ports =>
    { s with store := (discoverInstances net host s.store ports).1 }
  | .cycle net => { s with store := refresherCycle net s.store }
  | .unregister port => { s with store := (instancesUnregister s.store port).2 }
  | .resolve net portArg => (getInstancePort net s portArg).2
  | .use net port => (instancesUse net s port).2
  | .setCurrent port => setCurrentPort s port

/-- States reachable from process start by any sequence of operations. -/
inductive Reachable : BridgeState → Prop where
  | init : Reachable initState
  | step : ∀ s op, Reachable s → Reachable (stepOp s op)

/-! ## Store invariants -/

/-- The record invariant maintained by every operation: a record always
carries its `url` (inserted first at `state.py:71`), and if it carries an
`api_version` at all, that version passed the handshake check and equals
the required constant. -/
def GoodRec (r : Record) : Prop :=
  (∃ u, recGet r "url" = some (.vStr u)) ∧
  (∀ v, recGet r "api_version" = some v → v = .vJson (.num REQUIRED_API_VERSION))

/-- `response.json()` produced no usable result object: the body failed
to parse, or parsed to something without a dict under `"result"`. -/
def noResultDict : Option Json → Bool
  | none => true
  | some j => (getResultDict j).isNone

/-! ## Lock/network event traces

`instances_lock` is a non-reentrant `threading.Lock`.  To settle the
claim that it is never held across a network call, each operation is
instrumented as the sequence of lock and HTTP events it performs, in
program order, and `heldAcross` detects an HTTP request issued at
positive lock depth. -/

/-- One observable event: lock acquire, lock release, or an outbound
HTTP request attempt to a URL. -/
inductive Ev where
  | acq
  | rel
  | http (u : String)

/-- Scan a trace tracking lock depth; true iff some HTTP request is
issued while the lock is held. -/
def heldAcrossAux : Nat → List Ev → Bool
  | _, [] => false
  | d, .acq :: t => heldAcrossAux (d + 1) t
  | d, .rel :: t => heldAcrossAux (d - 1) t
  | d, .http _ :: t => if d > 0 then true else heldAcrossAux d t

/-- An HTTP request occurs somewhere in the trace under the lock. -/
def heldAcross (tr : List Ev) : Bool := heldAcrossAux 0 tr

/-- Lock depth at the end of a trace. -/
def endDepth : Nat → List Ev → Nat
  | d, [] => d
  | d, .acq :: t => endDepth (d + 1) t
  | d, .rel :: t => endDepth (d - 1) t
  | d, .http _ :: t => endDepth d t

/-- Event trace of `register_instance` (`state.py:59-136`): the
`/plugin-version` probe, then — unless the call failed early — the
`/program` probe and the lock-guarded store insert of lines 131-132. -/
def registerTrace (net : Network) (port : Nat) (urlArg : Option String) : List Ev :=
  let url := registerUrl port urlArg
  .http (url ++ "/plugin-version") ::
    (match net (url ++ "/plugin-version") with
     | .err _ => []
     | .resp ok body =>
       if ok then
         match versionOutcome body with
         | .mismatch _ => []
         | _ => [.http (url ++ "/program"), .acq, .rel]
       else [])

/-- Event trace of `instances_unregister` (`instance_tools.py:85-89`):
the whole body runs under the lock, no network call. -/
def unregisterTrace : List Ev := [.acq, .rel]

/-- Event trace of `_discover_instances` (`state.py:139-190`): probes
outside any lock; the only lock use is inside `register_instance`.
A body on which the success check raises `TypeError` ends the trace at
that port (the exception propagates to the caller). -/
def scanTrace (net : Network) (host : String) : Store → List Nat → List Ev
  | _, [] => []
  | st, port :: rest =>
    if storeHas st port then scanTrace net host st rest
    else
      let url := s!"http://{host}:{port}"
      .http (url ++ "/plugin-version") ::
        (match net (url ++ "/plugin-version") with
         | .err _ => scanTrace net host st rest
         | .resp ok body =>
           if ok then
             match body with
             | none => scanTrace net host st rest
             | some j =>
               if discoveryRaises j then []
               else if discoveryWellFormed j then
                 registerTrace net port (some url) ++
                   scanTrace net host (registerInstance net st port (some url)).2 rest
               else scanTrace net host st rest
           else scanTrace net host st rest)

/-- Event trace of `instances_list` / `instances_discover`
(`instance_tools.py:24-43` and `46-70`): a quick-range discovery scan
on the given host (the default host for `instances_list`), then the
`with instances_lock` block that only builds the result list from the
store — no network call under the lock.  If the scan raised, the
exception propagates out of the tool before the lock is ever taken. -/
def instancesListTrace (net : Network) (host : String) (st : Store) : List Ev :=
  scanTrace net host st quickDiscoveryRange ++
    (match (discoverInstances net host st quickDiscoveryRange).2 with
     | none => []
     | some _ => [.acq, .rel])

/-- Event trace of `get_instance_port` (`state.py:26-33`): no lock of its
own; at most the lazy `register_instance` attempt. -/
def resolveTrace (net : Network) (s : BridgeState) (portArg : Option Nat) : List Ev :=
  let port := resolvePortArg portArg s.currentPort
  if storeHas s.store port then [] else registerTrace net port none

/-- Event trace of the refresher's liveness sweep (`state.py:199-243`):
the lock is taken once, and every per-record `/plugin-version` probe and
`/program` refresh happens inside it; `entries` is the `items()`
snapshot being iterated. -/
def sweepTrace (net : Network) (entries : List (Nat × Record)) : List Ev :=
  .acq ::
    ((entries.map (fun e =>
      let u := recUrlD e.2
      .http (u ++ "/plugin-version") ::
        (match net (u ++ "/plugin-version") with
         | .err _ => []
         | .resp ok _ => if ok then [.http (u ++ "/program")] else []))).flatten
      ++ [.rel])

/-- Event trace of `get_instance_url` (`state.py:36-45`): the lock wraps
the lookup and, for an unknown plausible port, the whole lazy
`register_instance` call — including its probes and its own nested
acquire of the same non-reentrant lock. -/
def getInstanceUrlTrace (net : Network) (st : Store) (port : Nat) : List Ev :=
  .acq ::
    ((if storeHas st port then []
      else if 8192 ≤ port ∧ port ≤ 65535 then registerTrace net port none
      else []) ++ [.rel])

/-! ## Concrete fixtures for witnesses and counterexamples -/

/-- A well-formed handshake body: success flag, result dict with the
required API version. -/
def goodBody : Json :=
  .obj [("success", .bool true),
        ("result", .obj [("plugin_version", .str "1.0"), ("api_version", .num 2010)])]

/-- A backend answering every request with the well-formed body. -/
def netGood : Network := fun _ => .resp true (some goodBody)

/-- A backend answering every request with HTTP success but a body on
which `.json()` raises. -/
def netMalformed : Network := fun _ => .resp true none

/-- A backend whose handshake result dict lacks `api_version`. -/
def netNoApi : Network := fun _ =>
  .resp true (some (.obj [("result", .obj [("plugin_version", .str "1.0")])]))

/-- A backend answering with a parseable body that has no result object. -/
def netEmptyObj : Network := fun _ => .resp true (some (.obj []))

/-- A backend reporting a wrong API version. -/
def bodyWrongApi : Json := .obj [("result", .obj [("api_version", .num 2009)])]

/-- Network serving `bodyWrongApi` everywhere. -/
def netWrongApi : Network := fun _ => .resp true (some bodyWrongApi)

/-- A network on which every request raises `RequestException`. -/
def netDown : Network := fun _ => .err "connection refused"

/-- A backend answering every request with an ok status and a scalar
JSON body: the discovery success check raises `TypeError` on it. -/
def netScalar : Network := fun _ => .resp true (some (.num 5))

/-- A record for an instance on port 9999 (outside every scan range). -/
def recNine : Record := [("url", .vStr "http://localhost:9999")]

/-- A store holding only the port-9999 instance. -/
def stNine : Store := storeInsert emptyStore 9999 recNine

/-- A minimal record as stored for a freshly registered instance whose
metadata enrichment got nothing. -/
def recBare : Record := [("url", .vStr "http://localhost:8192")]

/-- The record stored by `registerInstance netGood emptyStore 8192 none`:
handshake fields plus the default-valued metadata block (the good body's
result dict has no `programId`, so `programId` defaults to `""`). -/
def recGood : Record :=
  [("url", .vStr "http://localhost:8192"),
   ("plugin_version", .vJson (.str "1.0")),
   ("api_version", .vJson (.num 2010)),
   ("file", .vJson (.str "")),
   ("language_id", .vJson (.str "")),
   ("compiler_spec_id", .vJson (.str "")),
   ("image_base", .vJson (.str ""))]

/-- Reachable state holding one fully validated instance on port 8192. -/
def stateGood : BridgeState := stepOp initState (.register netGood 8192 none)

/-- Reachable state produced by registering against a backend whose
handshake body is unparseable: the record is stored with only its url. -/
def stateMalformed : BridgeState := stepOp initState (.register netMalformed 8192 none)

/-- Reachable state with `current_instance_port = 0`, produced by the
unvalidated `set_current_port` (`state.py:48-51`). -/
def stateZero : BridgeState := stepOp initState (.setCurrent 0)

/-! ## Dictionary lemmas -/

theorem recGet_recInsert (r : Record) (k k' : String) (v : Value) :
    recGet (recInsert r k v) k' = if k = k' then some v else recGet r k' := by
  induction r with
  | nil => simp [recInsert, recGet]
  | cons hd tl ih =>
    obtain ⟨k0, v0⟩ := hd
    simp only [recInsert]
    by_cases h0 : k0 = k
    · subst h0
      simp only [if_pos rfl, recGet]
      by_cases h1 : k0 = k'
      · simp [h1]
      · simp [h1]
    · simp only [if_neg h0, recGet, ih]
      by_cases h1 : k0 = k'
      · subst h1
        simp only [if_pos rfl]
        have : ¬ k = k0 := fun h => h0 h.symm
        simp [this]
      · simp [h1]

theorem recGet_recInsert_ne (r : Record) {k k' : String} (v : Value)
    (h : k ≠ k') : recGet (recInsert r k v) k' = recGet r k' := by
  rw [recGet_recInsert, if_neg h]

/-- Metadata enrichment never touches the `url`, `plugin_version` or
`api_version` bindings of a record. -/
theorem recGet_applyProgramFields (wl : Bool) (res : List (String × Json))
    (r : Record) (k : String)
    (h1 : k ≠ "project") (h2 : k ≠ "path") (h3 : k ≠ "file")
    (h4 : k ≠ "language_id") (h5 : k ≠ "compiler_spec_id")
    (h6 : k ≠ "image_base") (h7 : k ≠ "_links") :
    recGet (applyProgramFields wl res r) k = recGet r k := by
  unfold applyProgramFields
  cases jgetD res "programId" (.str "") with
  | str s =>
    simp only []
    by_cases hc : ':' ∈ s.data <;>
      by_cases hw : wl <;>
        simp only [hc, hw, if_pos, if_neg, ite_true, ite_false] <;>
          cases jlookup res "_links" <;>
            simp [hc, hw, recGet_recInsert_ne, Ne.symm h1, Ne.symm h2, Ne.symm h3,
              Ne.symm h4, Ne.symm h5, Ne.symm h6, Ne.symm h7]
  | null => rfl
  | bool b => rfl
  | num n => rfl
  | arr xs => rfl
  | obj fs => rfl

theorem recGet_registerEnrich (net : Network) (url : String) (r : Record)
    (k : String)
    (h1 : k ≠ "project") (h2 : k ≠ "path") (h3 : k ≠ "file")
    (h4 : k ≠ "language_id") (h5 : k ≠ "compiler_spec_id")
    (h6 : k ≠ "image_base") (h7 : k ≠ "_links") :
    recGet (registerEnrich net url r) k = recGet r k := by
  unfold registerEnrich
  cases net (url ++ "/program") with
  | err _ => rfl
  | resp ok body =>
    cases ok
    · rfl
    · cases body with
      | none => rfl
      | some j =>
        cases hres : getResultDict j with
        | none => simp [hres]
        | some res => simp [hres, recGet_applyProgramFields _ _ _ _ h1 h2 h3 h4 h5 h6 h7]

theorem recGet_refreshMeta (net : Network) (r : Record) (k : String)
    (h1 : k ≠ "project") (h2 : k ≠ "path") (h3 : k ≠ "file")
    (h4 : k ≠ "language_id") (h5 : k ≠ "compiler_spec_id")
    (h6 : k ≠ "image_base") (h7 : k ≠ "_links") :
    recGet (refreshMeta net r) k = recGet r k := by
  unfold refreshMeta
  cases net (recUrlD r ++ "/program") with
  | err _ => rfl
  | resp ok body =>
    cases ok
    · rfl
    · cases body with
      | none => rfl
      | some j =>
        cases hres : getResultDict j with
        | none => simp [hres]
        | some res => simp [hres, recGet_applyProgramFields _ _ _ _ h1 h2 h3 h4 h5 h6 h7]

/-! ## Characterizing `register_instance` -/

theorem isRequiredVersion_eq (av : Json) (h : isRequiredVersion av = true) :
    av = .num REQUIRED_API_VERSION := by
  cases av <;> simp [isRequiredVersion] at h ⊢
  omega

theorem versionOutcome_extracted {body : Option Json} {pv av : Json}
    (h : versionOutcome body = .extracted pv av) : isRequiredVersion av = true := by
  cases body with
  | none => simp [versionOutcome] at h
  | some j =>
    simp only [versionOutcome] at h
    cases hres : getResultDict j with
    | none => rw [hres] at h; simp at h
    | some res =>
      rw [hres] at h
      simp only [] at h
      by_cases hv : isRequiredVersion (jgetD res "api_version" (.num 0)) = true
      · rw [if_pos hv] at h
        cases h
        exact hv
      · rw [if_neg hv] at h
        simp at h

/-- Everything `register_instance` can do to the store: leave it alone
(failure paths), or insert at its own port a record that carries the
computed url and — when it carries an `api_version` at all — the
required version. -/
theorem registerInstance_spec (net : Network) (st : Store) (port : Nat)
    (urlArg : Option String) :
    (registerInstance net st port urlArg).2 = st ∨
    ∃ r, (registerInstance net st port urlArg).2 = storeInsert st port r ∧
      recGet r "url" = some (.vStr (registerUrl port urlArg)) ∧
      ∀ v, recGet r "api_version" = some v → v = .vJson (.num REQUIRED_API_VERSION) := by
  cases hnet : net (registerUrl port urlArg ++ "/plugin-version") with
  | err e => left; simp [registerInstance, hnet]
  | resp ok body =>
    cases ok
    · left; simp [registerInstance, hnet]
    · cases hvo : versionOutcome body with
      | mismatch av => left; simp [registerInstance, hnet, hvo]
      | extracted pv av =>
        refine Or.inr ⟨registerEnrich net (registerUrl port urlArg)
          (recInsert (recInsert [("url", Value.vStr (registerUrl port urlArg))]
            "plugin_version" (.vJson pv)) "api_version" (.vJson av)), ?_, ?_, ?_⟩
        · simp [registerInstance, hnet, hvo]
        · rw [recGet_registerEnrich _ _ _ _ (by decide) (by decide) (by decide)
            (by decide) (by decide) (by decide) (by decide)]
          rw [recGet_recInsert_ne _ _ (by decide), recGet_recInsert_ne _ _ (by decide)]
          simp [recGet]
        · intro v hv
          rw [recGet_registerEnrich _ _ _ _ (by decide) (by decide) (by decide)
            (by decide) (by decide) (by decide) (by decide)] at hv
          rw [recGet_recInsert] at hv
          simp only [if_pos rfl] at hv
          cases hv
          rw [isRequiredVersion_eq av (versionOutcome_extracted hvo)]
      | skip =>
        refine Or.inr ⟨registerEnrich net (registerUrl port urlArg)
          [("url", Value.vStr (registerUrl port urlArg))], ?_, ?_, ?_⟩
        · simp [registerInstance, hnet, hvo]
        · rw [recGet_registerEnrich _ _ _ _ (by decide) (by decide) (by decide)
            (by decide) (by decide) (by decide) (by decide)]
          simp [recGet]
        · intro v hv
          rw [recGet_registerEnrich _ _ _ _ (by decide) (by decide) (by decide)
            (by decide) (by decide) (by decide) (by decide)] at hv
          simp [recGet] at hv

/-- `register_instance` touches no store key other than its own port. -/
theorem registerInstance_apply_ne (net : Network) (st : Store) (port : Nat)
    (urlArg : Option String) {q : Nat} (hq : q ≠ port) :
    (registerInstance net st port urlArg).2 q = st q := by
  rcases registerInstance_spec net st port urlArg with h | ⟨r, h, _, _⟩
  · rw [h]
  · rw [h, storeInsert, if_neg hq]

/-- `register_instance` never deletes a store entry. -/
theorem registerInstance_keeps (net : Network) (st : Store) (port : Nat)
    (urlArg : Option String) {q : Nat} (hq : st q ≠ none) :
    (registerInstance net st port urlArg).2 q ≠ none := by
  rcases registerInstance_spec net st port urlArg with h | ⟨r, h, _, _⟩
  · rw [h]; exact hq
  · rw [h, storeInsert]
    by_cases hqp : q = port
    · simp [hqp]
    · simpa [hqp] using hq

/-- The discovery scan never touches the entry of a port already in the
store: existing records are preserved verbatim (`state.py:145-146` skips
known ports, and each registration writes only its own fresh port). -/
theorem discoverInstances_preserves (net : Network) (host : String) :
    ∀ (ports : List Nat) (st : Store) (p : Nat), st p ≠ none →
      (discoverInstances net host st ports).1 p = st p := by
  intro ports
  induction ports with
  | nil => intro st p _; rfl
  | cons port rest ih =>
    intro st p hp
    unfold discoverInstances
    by_cases hhas : storeHas st port
    · simp only [hhas, ite_true]
      exact ih st p hp
    · simp only [hhas, Bool.false_eq_true, ite_false]
      cases net (s!"http://{host}:{port}" ++ "/plugin-version") with
      | err _ => exact ih st p hp
      | resp ok body =>
        cases ok
        · exact ih st p hp
        · cases body with
          | none => exact ih st p hp
          | some j =>
            by_cases hrj : discoveryRaises j
            · simp only [hrj, ite_true]
            · simp only [hrj, Bool.false_eq_true, ite_false]
              by_cases hwf : discoveryWellFormed j
              · simp only [hwf, ite_true]
                have hne : p ≠ port := by
                  intro he
                  subst he
                  rw [storeHas] at hhas
                  exact hhas (Option.isSome_iff_ne_none.mpr hp)
                have hst' : (registerInstance net st port (some s!"http://{host}:{port}")).2 p = st p :=
                  registerInstance_apply_ne net st port _ hne
                rw [ih _ p (by rw [hst']; exact hp), hst']
              · simp only [hwf, Bool.false_eq_true, ite_false]
                exact ih st p hp

/-! ## Preservation of the record invariant by every operation -/

theorem storeInv_register (net : Network) (st : Store) (port : Nat)
    (urlArg : Option String) (h : ∀ p r, st p = some r → GoodRec r) :
    ∀ p r, (registerInstance net st port urlArg).2 p = some r → GoodRec r := by
  rcases registerInstance_spec net st port urlArg with he | ⟨r', he, hurl, hapi⟩
  · rw [he]; exact h
  · rw [he]
    intro p r hp
    rw [storeInsert] at hp
    by_cases hpp : p = port
    · rw [if_pos hpp] at hp
      cases hp
      exact ⟨⟨_, hurl⟩, hapi⟩
    · rw [if_neg hpp] at hp
      exact h p r hp

theorem storeInv_discover (net : Network) (host : String) :
    ∀ (ports : List Nat) (st : Store), (∀ p r, st p = some r → GoodRec r) →
      ∀ p r, (discoverInstances net host st ports).1 p = some r → GoodRec r := by
  intro ports
  induction ports with
  | nil => intro st h p r hp; exact h p r hp
  | cons port rest ih =>
    intro st h
    unfold discoverInstances
    by_cases hhas : storeHas st port
    · simp only [hhas, ite_true]
      exact ih st h
    · simp only [hhas, Bool.false_eq_true, ite_false]
      cases net (s!"http://{host}:{port}" ++ "/plugin-version") with
      | err _ => exact ih st h
      | resp ok body =>
        cases ok
        · exact ih st h
        · cases body with
          | none => exact ih st h
          | some j =>
            by_cases hrj : discoveryRaises j
            · simp only [hrj, ite_true]
              exact h
            · simp only [hrj, Bool.false_eq_true, ite_false]
              by_cases hwf : discoveryWellFormed j
              · simp only [hwf, ite_true]
                exact ih _ (storeInv_register net st port _ h)
              · simp only [hwf, Bool.false_eq_true, ite_false]
                exact ih st h

theorem goodRec_refreshMeta (net : Network) (r : Record) (h : GoodRec r) :
    GoodRec (refreshMeta net r) := by
  obtain ⟨⟨u, hu⟩, hapi⟩ := h
  constructor
  · refine ⟨u, ?_⟩
    rw [recGet_refreshMeta _ _ _ (by decide) (by decide) (by decide) (by decide)
      (by decide) (by decide) (by decide)]
    exact hu
  · intro v hv
    rw [recGet_refreshMeta _ _ _ (by decide) (by decide) (by decide) (by decide)
      (by decide) (by decide) (by decide)] at hv
    exact hapi v hv

theorem storeInv_sweep (net : Network) (st : Store)
    (h : ∀ p r, st p = some r → GoodRec r) :
    ∀ p r, sweepStore net st p = some r → GoodRec r := by
  intro p r hp
  rw [sweepStore] at hp
  cases hst : st p with
  | none => rw [hst] at hp; simp at hp
  | some r0 =>
    rw [hst] at hp
    simp only [Option.some_bind] at hp
    unfold sweepRecord at hp
    cases hnet : net (recUrlD r0 ++ "/plugin-version") with
    | err e => rw [hnet] at hp; simp at hp
    | resp ok body =>
      rw [hnet] at hp
      simp only [] at hp
      cases ok
      · simp at hp
      · simp only [ite_true] at hp
        cases hp
        exact goodRec_refreshMeta net r0 (h p r0 hst)

theorem getInstancePort_store (net : Network) (s : BridgeState) (pa : Option Nat) :
    (getInstancePort net s pa).2.store = s.store ∨
    (getInstancePort net s pa).2.store =
      (registerInstance net s.store (resolvePortArg pa s.currentPort) none).2 := by
  unfold getInstancePort
  by_cases h : storeHas s.store (resolvePortArg pa s.currentPort)
  · simp [h]
  · simp only [h, Bool.false_eq_true, ite_false]
    by_cases h2 : storeHas
        (registerInstance net s.store (resolvePortArg pa s.currentPort) none).2
        (resolvePortArg pa s.currentPort)
    · simp [h2]
    · simp [h2]

theorem instancesUse_store (net : Network) (s : BridgeState) (port : Nat) :
    (instancesUse net s port).2.store = s.store ∨
    (instancesUse net s port).2.store = (registerInstance net s.store port none).2 := by
  unfold instancesUse
  by_cases h : storeHas s.store port
  · simp only [h, ite_true]
    cases s.store port <;> simp
  · simp only [h, Bool.false_eq_true, ite_false]
    cases (registerInstance net s.store port none).2 port <;> simp

/-- The store invariant holds in every reachable state: every stored
record carries its url, and any stored `api_version` equals the required
constant. -/
theorem reachable_goodRec : ∀ s, Reachable s → ∀ p r, s.store p = some r → GoodRec r := by
  intro s hs
  induction hs with
  | init => intro p r hp; simp [initState, emptyStore] at hp
  | step s' op _ ih =>
    cases op with
    | register net port urlArg => exact storeInv_register net s'.store port urlArg ih
    | scan net host ports => exact storeInv_discover net host ports s'.store ih
    | cycle net =>
      intro p r hp
      rw [stepOp] at hp
      unfold refresherCycle at hp
      cases hscan : (discoverInstances net GHIDRA_HOST s'.store fullDiscoveryRange).2 with
      | none =>
        rw [hscan] at hp
        simp only [] at hp
        exact storeInv_discover net GHIDRA_HOST fullDiscoveryRange s'.store ih p r hp
      | some found =>
        rw [hscan] at hp
        simp only [] at hp
        exact storeInv_sweep net _
          (storeInv_discover net GHIDRA_HOST fullDiscoveryRange s'.store ih) p r hp
    | unregister port =>
      intro p r hp
      simp only [stepOp, instancesUnregister] at hp
      by_cases h : storeHas s'.store port
      · simp only [h, ite_true, storeErase] at hp
        by_cases hpp : p = port
        · simp [hpp] at hp
        · rw [if_neg hpp] at hp
          exact ih p r hp
      · simp only [h, Bool.false_eq_true, ite_false] at hp
        exact ih p r hp
    | resolve net portArg =>
      rcases getInstancePort_store net s' portArg with he | he
      · intro p r hp
        rw [stepOp] at hp
        rw [he] at hp
        exact ih p r hp
      · intro p r hp
        rw [stepOp] at hp
        rw [he] at hp
        exact storeInv_register net s'.store _ none ih p r hp
    | use net port =>
      rcases instancesUse_store net s' port with he | he
      · intro p r hp
        rw [stepOp] at hp
        rw [he] at hp
        exact ih p r hp
      · intro p r hp
        rw [stepOp] at hp
        rw [he] at hp
        exact storeInv_register net s'.store port none ih p r hp
    | setCurrent port => exact ih

/-! ## The refresher cycle, pointwise -/

/-- For a port already stored, one refresher cycle whose discovery pass
completes acts on its record exactly as the liveness sweep dictates:
the discovery pass skips stored ports, so the record reaching the sweep
is unchanged. -/
theorem refresherCycle_at (net : Network) (st : Store) (p : Nat) (r : Record)
    (hp : st p = some r) (found : List Nat)
    (hscan : (discoverInstances net GHIDRA_HOST st fullDiscoveryRange).2 = some found) :
    refresherCycle net st p = sweepRecord net r := by
  unfold refresherCycle
  rw [hscan]
  simp only []
  unfold sweepStore
  rw [discoverInstances_preserves net GHIDRA_HOST fullDiscoveryRange st p
    (by rw [hp]; simp), hp]
  rfl

/-- When the discovery pass of a cycle raises (uncaught `TypeError` at
`state.py:163`, caught only by the cycle-level handler at line 244), the
sweep is skipped and every stored record survives unchanged. -/
theorem refresherCycle_abort_at (net : Network) (st : Store) (p : Nat) (r : Record)
    (hp : st p = some r)
    (habort : (discoverInstances net GHIDRA_HOST st fullDiscoveryRange).2 = none) :
    refresherCycle net st p = some r := by
  unfold refresherCycle
  rw [habort]
  simp only []
  rw [discoverInstances_preserves net GHIDRA_HOST fullDiscoveryRange st p
    (by rw [hp]; simp), hp]

/-! ## Lock-trace lemmas -/

theorem heldAcrossAux_append (tr1 tr2 : List Ev) :
    ∀ d, heldAcrossAux d (tr1 ++ tr2) =
      (heldAcrossAux d tr1 || heldAcrossAux (endDepth d tr1) tr2) := by
  induction tr1 with
  | nil => intro d; simp [heldAcrossAux, endDepth]
  | cons e t ih =>
    intro d
    cases e with
    | acq => simp [heldAcrossAux, endDepth, ih]
    | rel => simp [heldAcrossAux, endDepth, ih]
    | http u =>
      simp only [List.cons_append, heldAcrossAux, endDepth]
      by_cases hd : d > 0
      · simp [hd]
      · simp [hd, ih]

/-- `register_instance` performs no network call under the lock, and
leaves the lock released. -/
theorem registerTrace_unlocked (net : Network) (port : Nat) (urlArg : Option String) :
    heldAcross (registerTrace net port urlArg) = false ∧
      endDepth 0 (registerTrace net port urlArg) = 0 := by
  cases hnet : net (registerUrl port urlArg ++ "/plugin-version") with
  | err e => simp [registerTrace, heldAcross, hnet, heldAcrossAux, endDepth]
  | resp ok body =>
    cases ok
    · simp [registerTrace, heldAcross, hnet, heldAcrossAux, endDepth]
    · cases hvo : versionOutcome body with
      | mismatch av => simp [registerTrace, heldAcross, hnet, hvo, heldAcrossAux, endDepth]
      | extracted pv av =>
        simp [registerTrace, heldAcross, hnet, hvo, heldAcrossAux, endDepth]
      | skip => simp [registerTrace, heldAcross, hnet, hvo, heldAcrossAux, endDepth]

theorem scanTrace_unlocked (net : Network) (host : String) :
    ∀ (ports : List Nat) (st : Store), heldAcross (scanTrace net host st ports) = false := by
  intro ports
  induction ports with
  | nil => intro st; rfl
  | cons port rest ih =>
    intro st
    unfold scanTrace
    by_cases hhas : storeHas st port
    · simp only [hhas, ite_true]
      exact ih st
    · simp only [hhas, Bool.false_eq_true, ite_false]
      cases net (s!"http://{host}:{port}" ++ "/plugin-version") with
      | err _ => simpa [heldAcross, heldAcrossAux] using ih st
      | resp ok body =>
        cases ok
        · simpa [heldAcross, heldAcrossAux] using ih st
        · cases body with
          | none => simpa [heldAcross, heldAcrossAux] using ih st
          | some j =>
            by_cases hrj : discoveryRaises j
            · simp [hrj, heldAcross, heldAcrossAux]
            · simp only [hrj, Bool.false_eq_true, ite_false]
              by_cases hwf : discoveryWellFormed j
              · simp only [hwf, ite_true]
                have h1a : heldAcrossAux 0
                    (registerTrace net port (some s!"http://{host}:{port}")) = false :=
                  (registerTrace_unlocked net port (some s!"http://{host}:{port}")).1
                have h1b := (registerTrace_unlocked net port (some s!"http://{host}:{port}")).2
                show heldAcrossAux 0 (_ :: _) = false
                rw [heldAcrossAux]
                rw [if_neg (by omega : ¬ (0:Nat) > 0)]
                rw [heldAcrossAux_append, h1a, h1b]
                simp only [Bool.false_or]
                exact ih (registerInstance net st port (some s!"http://{host}:{port}")).2
              · simp only [hwf, Bool.false_eq_true, ite_false]
                simpa [heldAcross, heldAcrossAux] using ih st

theorem resolveTrace_unlocked (net : Network) (s : BridgeState) (pa : Option Nat) :
    heldAcross (resolveTrace net s pa) = false := by
  unfold resolveTrace
  by_cases h : storeHas s.store (resolvePortArg pa s.currentPort)
  · simp [h, heldAcross, heldAcrossAux]
  · simp only [h, Bool.false_eq_true, ite_false]
    exact (registerTrace_unlocked net (resolvePortArg pa s.currentPort) none).1

/-- The listing tools probe only inside the (lock-free) scan; their
lock section builds the result list from the store without any network
call, and is not reached at all when the scan raised. -/
theorem instancesListTrace_unlocked (net : Network) (host : String) (st : Store) :
    heldAcross (instancesListTrace net host st) = false := by
  unfold instancesListTrace heldAcross
  rw [heldAcrossAux_append]
  rw [show heldAcrossAux 0 (scanTrace net host st quickDiscoveryRange) = false from
    scanTrace_unlocked net host quickDiscoveryRange st]
  cases (discoverInstances net host st quickDiscoveryRange).2 <;>
    simp [heldAcrossAux]

/-- On any nonempty store snapshot, the refresher's sweep issues its
liveness probe while holding the lock. -/
theorem sweepTrace_locked (net : Network) (e : Nat × Record) (rest : List (Nat × Record)) :
    heldAcross (sweepTrace net (e :: rest)) = true := by
  simp [sweepTrace, heldAcross, heldAcrossAux]

/-- `get_instance_url` on an unknown plausible port runs the whole lazy
registration — network probes included — inside the lock. -/
theorem getInstanceUrlTrace_locked (net : Network) (st : Store) (port : Nat)
    (h : storeHas st port = false) (h1 : 8192 ≤ port) (h2 : port ≤ 65535) :
    heldAcross (getInstanceUrlTrace net st port) = true := by
  simp [getInstanceUrlTrace, h, h1, h2, registerTrace, heldAcross, heldAcrossAux]

/-! ## Version-outcome helpers -/

theorem versionOutcome_skip_of_noResult (body : Option Json)
    (h : noResultDict body = true) : versionOutcome body = .skip := by
  cases body with
  | none => rfl
  | some j =>
    simp only [noResultDict, Option.isNone_iff_eq_none] at h
    simp [versionOutcome, h]

theorem versionOutcome_mismatch_absent (b : Json) (res : List (String × Json))
    (hres : getResultDict b = some res)
    (hav : jlookup res "api_version" = none) :
    versionOutcome (some b) = .mismatch (.num 0) := by
  simp only [versionOutcome, hres]
  rw [show jgetD res "api_version" (.num 0) = .num 0 by simp [jgetD, hav]]
  have hz : isRequiredVersion (Json.num 0) = false := by decide
  rw [hz]
  simp

theorem versionOutcome_extracted_of (b : Json) (res : List (String × Json))
    (hres : getResultDict b = some res)
    (hv : isRequiredVersion (jgetD res "api_version" (.num 0)) = true) :
    versionOutcome (some b) =
      .extracted (jgetD res "plugin_version" (.str "")) (jgetD res "api_version" (.num 0)) := by
  simp [versionOutcome, hres, hv]

/-! ## Claim C1 — store version invariant -/

/-- Claim C1, as stated, is false: the claim demands that every stored
record's `api_version` equal the required constant 2010, but a backend
whose `/plugin-version` body fails to parse is registered anyway
(`state.py:97-98` swallows the parse error and falls through to the
store write at line 131), producing a reachable store whose record for
port 8192 has no `api_version` at all — its stored `api_version` is not
2010 because it does not exist. -/
theorem C1_counterexample :
    Reachable stateMalformed ∧ stateMalformed.store 8192 = some recBare ∧
      recGet recBare "api_version" = none :=
  ⟨Reachable.step _ _ Reachable.init, rfl, rfl⟩

/-- Claim C1 (amended): in every reachable state, every stored record
that carries an `api_version` carries exactly the required constant
2010 — a backend reporting a mismatched version is never stored — but
records registered from malformed or result-less handshake bodies are
stored without any `api_version` field. -/
theorem C1_version_invariant_amended : ∀ s, Reachable s → ∀ p r v,
    s.store p = some r → recGet r "api_version" = some v →
    v = Value.vJson (Json.num REQUIRED_API_VERSION) :=
  fun s hs p r v hp hv => (reachable_goodRec s hs p r hp).2 v hv

/-- Witness for C1 (amended) at a concrete reachable state holding a
fully validated instance. -/
theorem C1_version_invariant_amended_witness :
    stateGood.store 8192 = some recGood ∧
      recGet recGood "api_version" = some (Value.vJson (Json.num 2010)) ∧
      Value.vJson (Json.num 2010) = Value.vJson (Json.num REQUIRED_API_VERSION) :=
  ⟨rfl, rfl,
    C1_version_invariant_amended stateGood (Reachable.step _ _ Reachable.init) 8192 recGood
      (Value.vJson (Json.num 2010)) rfl rfl⟩

/-! ## Claim C10 — every stored record contains a `url` field -/

/-- Claim C10: in every reachable state, every stored record contains a
`url` binding (a string), so the unguarded `record["url"]` accesses in
`get_instance_url` (`state.py:40`), the refresher sweep (`state.py:202`)
and the listing tools (`instance_tools.py:37,64`) cannot raise:
registration inserts the url first (`state.py:71`), the refresher
mutates only metadata fields, and unregister deletes whole records. -/
theorem C10_url_always_present : ∀ s, Reachable s → ∀ p r,
    s.store p = some r → ∃ u, recGet r "url" = some (Value.vStr u) :=
  fun s hs p r hp => (reachable_goodRec s hs p r hp).1

/-- Witness for C10 at a concrete reachable state whose stored record is
the bare `{url}` dict. -/
theorem C10_url_always_present_witness :
    stateMalformed.store 8192 = some recBare ∧
      ∃ u, recGet recBare "url" = some (Value.vStr u) :=
  ⟨rfl, C10_url_always_present stateMalformed (Reachable.step _ _ Reachable.init)
    8192 recBare rfl⟩

/-! ## Claim C7 — version mismatch is reported and not stored -/

/-- Claim C7: when the handshake body carries a result dict whose
`api_version` is present and differs from the required constant,
`register_instance` returns exactly the mismatch message (which names
the reported version and the required version 2010 by construction of
`mismatchMsg`) and leaves the store untouched; in particular a port
absent before the call is still absent after it. -/
theorem C7_version_mismatch_rejected (net : Network) (st : Store) (port : Nat)
    (urlArg : Option String) (b : Json) (res : List (String × Json)) (av : Json)
    (hnet : net (registerUrl port urlArg ++ "/plugin-version") = .resp true (some b))
    (hres : getResultDict b = some res)
    (hav : jlookup res "api_version" = some av)
    (hbad : isRequiredVersion av = false) :
    registerInstance net st port urlArg = (mismatchMsg av, st) ∧
    (storeHas st port = false → storeHas (registerInstance net st port urlArg).2 port = false) := by
  have hvo : versionOutcome (some b) = .mismatch av := by
    simp only [versionOutcome, hres]
    rw [show jgetD res "api_version" (.num 0) = av by simp [jgetD, hav], hbad]
    simp
  constructor
  · simp [registerInstance, hnet, hvo]
  · intro h
    have he : (registerInstance net st port urlArg).2 = st := by
      simp [registerInstance, hnet, hvo]
    rw [he]
    exact h

/-- Witness for C7 against a backend reporting version 2009 on an empty
store. -/
theorem C7_witness :
    isRequiredVersion (Json.num 2009) = false ∧
      registerInstance netWrongApi emptyStore 8192 none =
        (mismatchMsg (.num 2009), emptyStore) :=
  ⟨by decide,
    (C7_version_mismatch_rejected netWrongApi emptyStore 8192 none bodyWrongApi
      [("api_version", .num 2009)] (.num 2009) rfl rfl rfl (by decide)).1⟩

/-! ## Claim C2 — malformed handshake bodies -/

/-- Claim C2, as stated, is false: it demands that a success-status
`/plugin-version` response with an unparseable body be treated as
unreachable (failure, nothing stored), but `register_instance` swallows
the parse error at `state.py:97-98`, stores the record and returns the
success message. -/
theorem C2_counterexample :
    (registerInstance netMalformed emptyStore 8192 none).1 =
        registeredMsg 8192 "http://localhost:8192" ∧
      storeHas (registerInstance netMalformed emptyStore 8192 none).2 8192 = true :=
  ⟨rfl, rfl⟩

/-- Claim C2 (amended): a success-status handshake response whose body
fails to parse or carries no result dict is logged and swallowed — the
instance is registered and stored anyway; and (as claimed) malformation
of the `/program` metadata response never prevents registration: with a
valid handshake the record is stored whatever the `/program` endpoint
returns. -/
theorem C2_malformed_swallowed_amended :
    (∀ (net : Network) (st : Store) (port : Nat) (urlArg : Option String)
       (body : Option Json),
       net (registerUrl port urlArg ++ "/plugin-version") = .resp true body →
       noResultDict body = true →
       (registerInstance net st port urlArg).1 = registeredMsg port (registerUrl port urlArg) ∧
       storeHas (registerInstance net st port urlArg).2 port = true) ∧
    (∀ (net : Network) (st : Store) (port : Nat) (urlArg : Option String) (b : Json)
       (res : List (String × Json)),
       net (registerUrl port urlArg ++ "/plugin-version") = .resp true (some b) →
       getResultDict b = some res →
       isRequiredVersion (jgetD res "api_version" (.num 0)) = true →
       storeHas (registerInstance net st port urlArg).2 port = true) := by
  constructor
  · intro net st port urlArg body hnet hmal
    have hvo := versionOutcome_skip_of_noResult body hmal
    constructor
    · simp [registerInstance, hnet, hvo]
    · simp [registerInstance, hnet, hvo, storeHas, storeInsert]
  · intro net st port urlArg b res hnet hres hv
    have hvo := versionOutcome_extracted_of b res hres hv
    simp [registerInstance, hnet, hvo, storeHas, storeInsert]

/-- Witness for C2 (amended): a backend whose every body is unparseable
still gets registered on port 8193. -/
theorem C2_amended_witness :
    noResultDict (none : Option Json) = true ∧
      storeHas (registerInstance netMalformed emptyStore 8193 none).2 8193 = true :=
  ⟨rfl, (C2_malformed_swallowed_amended.1 netMalformed emptyStore 8193 none none rfl rfl).2⟩

/-! ## Claim C4 — absent `api_version` -/

/-- Claim C4, as stated, is false: it demands that any handshake body
lacking an `api_version` be accepted and stored with no mismatch check,
but when a result dict is present without `api_version`, the default
`result.get("api_version", 0)` of `state.py:80` feeds 0 into the check
at line 85, which fails and stores nothing. -/
theorem C4_counterexample :
    (registerInstance netNoApi emptyStore 8192 none).1 = mismatchMsg (.num 0) ∧
      storeHas (registerInstance netNoApi emptyStore 8192 none).2 8192 = false :=
  ⟨rfl, rfl⟩

/-- Claim C4 (amended): a handshake body with no result dict at all is
silently accepted — no version check runs and the record is stored; but
when a result dict is present and merely lacks `api_version`, the
defaulted value 0 triggers the mismatch check and the instance is
rejected with nothing stored. -/
theorem C4_absent_api_version_amended :
    (∀ (net : Network) (st : Store) (port : Nat) (urlArg : Option String) (b : Json),
       net (registerUrl port urlArg ++ "/plugin-version") = .resp true (some b) →
       getResultDict b = none →
       (registerInstance net st port urlArg).1 = registeredMsg port (registerUrl port urlArg) ∧
       storeHas (registerInstance net st port urlArg).2 port = true) ∧
    (∀ (net : Network) (st : Store) (port : Nat) (urlArg : Option String) (b : Json)
       (res : List (String × Json)),
       net (registerUrl port urlArg ++ "/plugin-version") = .resp true (some b) →
       getResultDict b = some res →
       jlookup res "api_version" = none →
       registerInstance net st port urlArg = (mismatchMsg (.num 0), st)) := by
  constructor
  · intro net st port urlArg b hnet hres
    have hvo : versionOutcome (some b) = .skip := by simp [versionOutcome, hres]
    constructor
    · simp [registerInstance, hnet, hvo]
    · simp [registerInstance, hnet, hvo, storeHas, storeInsert]
  · intro net st port urlArg b res hnet hres hav
    have hvo := versionOutcome_mismatch_absent b res hres hav
    simp [registerInstance, hnet, hvo]

/-- Witness for C4 (amended): a result dict lacking `api_version` is
rejected as a version mismatch against 0. -/
theorem C4_amended_witness :
    jlookup [("plugin_version", Json.str "1.0")] "api_version" = none ∧
      registerInstance netNoApi emptyStore 8193 none = (mismatchMsg (.num 0), emptyStore) :=
  ⟨rfl,
    C4_absent_api_version_amended.2 netNoApi emptyStore 8193 none
      (.obj [("result", .obj [("plugin_version", .str "1.0")])])
      [("plugin_version", .str "1.0")] rfl rfl rfl⟩

/-! ## Claim C5 — resolver contract -/

/-- Claim C5: the current port starts at the well-known default 8192;
`set_current_port` overwrites only the pointer; and `get_instance_port`
with the port omitted resolves the current port P, returning P when P is
stored, performing exactly one lazy registration attempt when it is not,
and failing with the `NO_ACTIVE_INSTANCE` error naming P when that
attempt leaves P unstored. -/
theorem C5_resolver_contract :
    initState.currentPort = DEFAULT_GHIDRA_PORT ∧
    (∀ (s : BridgeState) (P : Nat),
       (setCurrentPort s P).currentPort = P ∧ (setCurrentPort s P).store = s.store) ∧
    (∀ (net : Network) (store : Store) (P : Nat),
      (storeHas store P = true →
        getInstancePort net ⟨store, P⟩ none = (.ok P, ⟨store, P⟩)) ∧
      (storeHas store P = false →
        (storeHas (registerInstance net store P none).2 P = true →
          getInstancePort net ⟨store, P⟩ none =
            (.ok P, ⟨(registerInstance net store P none).2, P⟩)) ∧
        (storeHas (registerInstance net store P none).2 P = false →
          getInstancePort net ⟨store, P⟩ none =
            (.error (noActiveMsg P), ⟨(registerInstance net store P none).2, P⟩)))) := by
  refine ⟨rfl, fun s P => ⟨rfl, rfl⟩, fun net store P => ⟨?_, ?_⟩⟩
  · intro h
    simp [getInstancePort, resolvePortArg, h]
  · intro h
    constructor
    · intro h2
      simp [getInstancePort, resolvePortArg, h, h2]
    · intro h2
      simp [getInstancePort, resolvePortArg, h, h2]

/-- Witness for C5 at a store that already holds the current port. -/
theorem C5_witness :
    storeHas stateGood.store 8192 = true ∧
      getInstancePort netDown ⟨stateGood.store, 8192⟩ none =
        (.ok 8192, ⟨stateGood.store, 8192⟩) :=
  ⟨rfl, (C5_resolver_contract.2.2 netDown stateGood.store 8192).1 rfl⟩

/-! ## Claim C9 — port 0 resolution -/

/-- Claim C9, as stated, is false in its "port 0 is never validated,
registered, or named in any error" part: `set_current_port`
(`state.py:48-51`) accepts 0 unvalidated, and in the reachable state
with `current_instance_port = 0` the call `get_instance_port(0)`
resolves 0, attempts to register it, and raises the error naming
port 0. -/
theorem C9_counterexample :
    Reachable stateZero ∧
      noActiveMsg 0 = "No active Ghidra instance on port 0" ∧
      (getInstancePort netDown stateZero (some 0)).1 = .error (noActiveMsg 0) :=
  ⟨Reachable.step _ _ Reachable.init, rfl, rfl⟩

/-- Claim C9 (amended): `get_instance_port` with argument 0 behaves
identically to omitting the argument (0 is falsy at `state.py:28`, so
the process-wide current port is resolved instead); and whenever the
current port is itself nonzero, port 0 is never returned, never
registered, and never named in the error. -/
theorem C9_port_zero_amended :
    (∀ (net : Network) (s : BridgeState),
       getInstancePort net s (some 0) = getInstancePort net s none) ∧
    (∀ (net : Network) (s : BridgeState), s.currentPort ≠ 0 →
       (∀ p, (getInstancePort net s (some 0)).1 = .ok p → p ≠ 0) ∧
       (∀ m, (getInstancePort net s (some 0)).1 = .error m → m = noActiveMsg s.currentPort) ∧
       (s.store 0 = none → (getInstancePort net s (some 0)).2.store 0 = none)) := by
  constructor
  · intro net s
    rfl
  · intro net s hc
    by_cases h : storeHas s.store s.currentPort
    · refine ⟨?_, ?_, ?_⟩
      · intro p hp
        simp only [getInstancePort, resolvePortArg, ite_true, h] at hp
        injection hp with h1
        rw [← h1]
        exact hc
      · intro m hm
        simp only [getInstancePort, resolvePortArg, ite_true, h] at hm
        cases hm
      · intro h0
        simp only [getInstancePort, resolvePortArg, ite_true, h]
        exact h0
    · by_cases h2 : storeHas (registerInstance net s.store s.currentPort none).2 s.currentPort
      · refine ⟨?_, ?_, ?_⟩
        · intro p hp
          simp only [getInstancePort, resolvePortArg, ite_true, h, h2,
            Bool.false_eq_true, ite_false] at hp
          injection hp with h1
          rw [← h1]
          exact hc
        · intro m hm
          simp only [getInstancePort, resolvePortArg, ite_true, h, h2,
            Bool.false_eq_true, ite_false] at hm
          cases hm
        · intro h0
          simp only [getInstancePort, resolvePortArg, ite_true, h, h2,
            Bool.false_eq_true, ite_false]
          rw [registerInstance_apply_ne net s.store s.currentPort none (Ne.symm hc)]
          exact h0
      · refine ⟨?_, ?_, ?_⟩
        · intro p hp
          simp only [getInstancePort, resolvePortArg, ite_true, h, h2,
            Bool.false_eq_true, ite_false] at hp
          cases hp
        · intro m hm
          simp only [getInstancePort, resolvePortArg, ite_true, h, h2,
            Bool.false_eq_true, ite_false] at hm
          injection hm with h1
          rw [← h1]
        · intro h0
          simp only [getInstancePort, resolvePortArg, ite_true, h, h2,
            Bool.false_eq_true, ite_false]
          rw [registerInstance_apply_ne net s.store s.currentPort none (Ne.symm hc)]
          exact h0

/-- Witness for C9 (amended) at the reachable state whose current port
is 8192: resolving port 0 leaves port 0 unregistered. -/
theorem C9_amended_witness :
    stateGood.currentPort ≠ 0 ∧ stateGood.store 0 = none ∧
      (getInstancePort netDown stateGood (some 0)).2.store 0 = none :=
  ⟨by decide, rfl,
    (C9_port_zero_amended.2 netDown stateGood (by decide)).2.2 rfl⟩

/-! ## Claim C3 — the lock is never held across a network call -/

/-- Claim C3, as stated, is false: the refresher's liveness sweep
(`state.py:199-243`) takes `instances_lock` at line 199 and issues its
`/plugin-version` probes inside the critical section, as this concrete
one-record trace shows. -/
theorem C3_counterexample :
    heldAcross (sweepTrace netDown [(8192, recBare)]) = true := rfl

/-- Claim C3 (amended): `register_instance`, `instances_unregister`, the
discovery scan, the listing tools `instances_list`/`instances_discover`
and `get_instance_port` never issue HTTP requests while holding the
store lock (the validator's lock scope at `state.py:131-132` is just
the store write, and the listing tools scan before taking the lock);
but the refresher's liveness sweep probes every stored record inside
the lock, and `get_instance_url` on an unknown plausible port runs the
whole lazy registration — probes included — inside the lock. -/
theorem C3_lock_scope_amended :
    (∀ (net : Network) (port : Nat) (urlArg : Option String),
       heldAcross (registerTrace net port urlArg) = false) ∧
    heldAcross unregisterTrace = false ∧
    (∀ (net : Network) (host : String) (st : Store) (ports : List Nat),
       heldAcross (scanTrace net host st ports) = false) ∧
    (∀ (net : Network) (host : String) (st : Store),
       heldAcross (instancesListTrace net host st) = false) ∧
    (∀ (net : Network) (s : BridgeState) (pa : Option Nat),
       heldAcross (resolveTrace net s pa) = false) ∧
    (∀ (net : Network) (e : Nat × Record) (rest : List (Nat × Record)),
       heldAcross (sweepTrace net (e :: rest)) = true) ∧
    (∀ (net : Network) (st : Store) (port : Nat),
       storeHas st port = false → 8192 ≤ port → port ≤ 65535 →
       heldAcross (getInstanceUrlTrace net st port) = true) :=
  ⟨fun net port urlArg => (registerTrace_unlocked net port urlArg).1, rfl,
   fun net host st ports => scanTrace_unlocked net host ports st,
   instancesListTrace_unlocked,
   resolveTrace_unlocked, sweepTrace_locked, getInstanceUrlTrace_locked⟩

/-- Witness for C3 (amended): the lazy-registration path of
`get_instance_url` on the unknown port 9000 probes under the lock. -/
theorem C3_amended_witness :
    storeHas emptyStore 9000 = false ∧
      heldAcross (getInstanceUrlTrace netDown emptyStore 9000) = true :=
  ⟨rfl,
    C3_lock_scope_amended.2.2.2.2.2.2 netDown emptyStore 9000 rfl (by decide) (by decide)⟩

/-! ## Claim C6 — removal happens exactly at the next refresher cycle -/

/-- Claim C6, as stated, is false in its "no other operation removes it
before that" part: `instances_unregister` (`instance_tools.py:85-89`)
deletes a stored record immediately, with no refresher cycle involved —
here for a stored instance whose backend may well be unreachable. -/
theorem C6_counterexample :
    storeHas (registerInstance netGood emptyStore 8193 none).2 8193 = true ∧
      (instancesUnregister (registerInstance netGood emptyStore 8193 none).2 8193).2 8193 =
        none :=
  ⟨rfl, rfl⟩

/-- Claim C6 (amended): a discovery scan never removes (or even alters)
a stored entry, registration and resolution never remove entries, and —
apart from an explicit `instances_unregister` — removal can happen only
at a refresher cycle.  A cycle whose discovery pass completes deletes
precisely those stored records whose liveness probe raises or returns a
non-success status, and retains (metadata-refreshed) every record whose
probe succeeds; but a cycle whose discovery pass raises (an ok-status
body on which the success check of `state.py:163` throws `TypeError`,
uncaught at line 184 and caught only by the cycle-level handler at line
244) skips its sweep entirely, so even a dead instance's record
survives that cycle unchanged. -/
theorem C6_removal_amended :
    (∀ (net : Network) (host : String) (ports : List Nat) (st : Store) (p : Nat),
       st p ≠ none → (discoverInstances net host st ports).1 p = st p) ∧
    (∀ (net : Network) (st : Store) (port : Nat) (urlArg : Option String) (p : Nat),
       st p ≠ none → (registerInstance net st port urlArg).2 p ≠ none) ∧
    (∀ (net : Network) (s : BridgeState) (pa : Option Nat) (p : Nat),
       s.store p ≠ none → (getInstancePort net s pa).2.store p ≠ none) ∧
    (∀ (net : Network) (st : Store) (p : Nat) (r : Record), st p = some r →
       ((discoverInstances net GHIDRA_HOST st fullDiscoveryRange).2 = none →
          refresherCycle net st p = some r) ∧
       (∀ found,
          (discoverInstances net GHIDRA_HOST st fullDiscoveryRange).2 = some found →
          (∀ e, net (recUrlD r ++ "/plugin-version") = .err e →
             refresherCycle net st p = none) ∧
          (∀ body, net (recUrlD r ++ "/plugin-version") = .resp false body →
             refresherCycle net st p = none) ∧
          (∀ body, net (recUrlD r ++ "/plugin-version") = .resp true body →
             refresherCycle net st p = some (refreshMeta net r)))) := by
  refine ⟨fun net host ports st p h => discoverInstances_preserves net host ports st p h,
    fun net st port urlArg p h => registerInstance_keeps net st port urlArg h,
    ?_, ?_⟩
  · intro net s pa p h
    rcases getInstancePort_store net s pa with he | he
    · rw [he]; exact h
    · rw [he]
      exact registerInstance_keeps net s.store _ none h
  · intro net st p r hp
    refine ⟨refresherCycle_abort_at net st p r hp, ?_⟩
    intro found hscan
    have hc := refresherCycle_at net st p r hp found hscan
    refine ⟨?_, ?_, ?_⟩
    · intro e he
      rw [hc]
      unfold sweepRecord
      rw [he]
    · intro body hb
      rw [hc]
      unfold sweepRecord
      rw [hb]
      simp
    · intro body hb
      rw [hc]
      unfold sweepRecord
      rw [hb]
      simp

/-- Witness for C6 (amended), exercising both cycle behaviors: with the
backend down and a completing scan, the stored record on 8192 is
removed by the next cycle; with a scalar-body backend, the scan raises
at its first fresh port, the sweep is skipped, and the record on 9999
survives the cycle. -/
theorem C6_amended_witness :
    (stateGood.store 8192 = some recGood ∧
      (discoverInstances netDown GHIDRA_HOST stateGood.store fullDiscoveryRange).2 =
        some [] ∧
      refresherCycle netDown stateGood.store 8192 = none) ∧
    (stNine 9999 = some recNine ∧
      (discoverInstances netScalar GHIDRA_HOST stNine fullDiscoveryRange).2 = none ∧
      refresherCycle netScalar stNine 9999 = some recNine) :=
  ⟨⟨rfl, rfl,
    ((C6_removal_amended.2.2.2 netDown stateGood.store 8192 recGood rfl).2 [] rfl).1
      "connection refused" rfl⟩,
   ⟨rfl, rfl,
    (C6_removal_amended.2.2.2 netScalar stNine 9999 recNine rfl).1 rfl⟩⟩

/-! ## Claim C8 — re-registration and the port/url identity -/

/-- Claim C8, as stated, is false in its "url never changes after the
record's creation" part: re-registering a stored port with a different
`url` argument replaces the whole record, url included
(`state.py:61-62` recomputes the url from the arguments and line 132
overwrites the record). -/
theorem C8_counterexample :
    ((registerInstance netGood emptyStore 8192 none).2 8192).map
        (fun r => recGet r "url") = some (some (Value.vStr "http://localhost:8192")) ∧
      ((registerInstance netGood (registerInstance netGood emptyStore 8192 none).2 8192
          (some "http://otherhost:9999")).2 8192).map (fun r => recGet r "url") =
        some (some (Value.vStr "http://otherhost:9999")) :=
  ⟨rfl, rfl⟩

/-- Claim C8 (amended): re-registering a stored port keeps the port
present (the key is idempotent), but a successful re-registration
replaces the record wholesale and its stored url is recomputed from the
call's arguments; it is the background refresher whose metadata
mutation never changes a surviving record's url. -/
theorem C8_reregistration_amended :
    (∀ (net : Network) (st : Store) (port : Nat) (urlArg : Option String),
       storeHas st port = true →
       storeHas (registerInstance net st port urlArg).2 port = true ∧
       ((registerInstance net st port urlArg).2 = st ∨
        ((registerInstance net st port urlArg).2 port).map (fun r => recGet r "url") =
          some (some (Value.vStr (registerUrl port urlArg))))) ∧
    (∀ (net : Network) (st : Store) (p : Nat) (r r' : Record),
       st p = some r → refresherCycle net st p = some r' →
       recGet r' "url" = recGet r "url") := by
  constructor
  · intro net st port urlArg h
    rcases registerInstance_spec net st port urlArg with he | ⟨r', he, hurl, _⟩
    · rw [he]
      exact ⟨h, Or.inl rfl⟩
    · rw [he]
      constructor
      · simp [storeHas, storeInsert]
      · right
        simp [storeInsert, hurl]
  · intro net st p r r' hp hc
    cases hscan : (discoverInstances net GHIDRA_HOST st fullDiscoveryRange).2 with
    | none =>
      rw [refresherCycle_abort_at net st p r hp hscan] at hc
      injection hc with h1
      rw [← h1]
    | some found =>
      rw [refresherCycle_at net st p r hp found hscan] at hc
      unfold sweepRecord at hc
      cases hnet : net (recUrlD r ++ "/plugin-version") with
      | err e => rw [hnet] at hc; cases hc
      | resp ok body =>
        rw [hnet] at hc
        simp only [] at hc
        cases ok
        · simp at hc
        · simp only [ite_true] at hc
          cases hc
          exact recGet_refreshMeta net r "url" (by decide) (by decide) (by decide)
            (by decide) (by decide) (by decide) (by decide)

/-- Witness for C8 (amended) at a store already holding port 8192. -/
theorem C8_amended_witness :
    storeHas stateGood.store 8192 = true ∧
      storeHas (registerInstance netGood stateGood.store 8192
        (some "http://otherhost:9999")).2 8192 = true :=
  ⟨rfl,
    (C8_reregistration_amended.1 netGood stateGood.store 8192
      (some "http://otherhost:9999") rfl).1⟩

end GhidraMcp

